import Mathlib

/-!
Shallow embedding of the MSC container-tracking scraper (src/app.py and
src/main.py).  The browser DOM is modelled by `PageState`; time is modelled
by discrete ticks, one tick per polling interval / pause; the driver is a
function from ticks to page states inside a `World`.  Python exceptions are
modelled with `Except`, Python `None` with `Option`.
-/

namespace MSC

/-! ### Python string primitives -/

/-- Left strip: drop leading whitespace (Python `str.lstrip`). -/
def lstripList (l : List Char) : List Char := l.dropWhile Char.isWhitespace

/-- Right strip: drop trailing whitespace. -/
def rstripList (l : List Char) : List Char := (l.reverse.dropWhile Char.isWhitespace).reverse

/-- Python `str.strip()`: remove surrounding whitespace. -/
def pyStrip (s : String) : String := ⟨rstripList (lstripList s.data)⟩

/-- Python slicing `s[:n]`. -/
def pyTake (s : String) (n : Nat) : String := ⟨s.data.take n⟩

/-- Python `str.upper()` (ASCII). -/
def pyUpper (s : String) : String := ⟨s.data.map Char.toUpper⟩

/-- Split a character list on whitespace runs, keeping only non-empty words. -/
def wsWords : List Char → List Char → List (List Char)
  | [], [] => []
  | [], acc => [acc.reverse]
  | c :: rest, acc =>
      if c.isWhitespace then
        if acc.isEmpty then wsWords rest [] else acc.reverse :: wsWords rest []
      else wsWords rest (c :: acc)

/-- XPath `normalize-space`: strip, and collapse internal whitespace runs to
single spaces. -/
def normalizeSpace (s : String) : String := ⟨List.intercalate [' '] (wsWords s.data [])⟩

/-- Python `str.splitlines` on newline characters (a trailing empty line is
irrelevant to callers, which filter blanks). -/
def splitLinesAux : List Char → List Char → List String
  | [], acc => [⟨acc.reverse⟩]
  | c :: rest, acc =>
      if c = '\n' then (⟨acc.reverse⟩ : String) :: splitLinesAux rest []
      else splitLinesAux rest (c :: acc)

def pySplitlines (s : String) : List String := splitLinesAux s.data []

/-! ### DOM model

A `PageState` gives the outcome of each locator the scraper uses:
`none` / `[]` means the element is absent (so `find_element` raises).
The span lists carry, in document order, the text of every span matching the
locator prefix; XPath predicates on the text are applied by the locator
functions below, exactly as written in the source XPath strings. -/

structure PageState where
  /-- Text of the `.msc-flow-tracking__data, .msc-flow-tracking__cell` element. -/
  resultsRegionText : Option String
  /-- Text of the span following the `POD ETA` data-heading span. -/
  etaText : Option String
  /-- Text of the span following the `Port of Discharge` span. -/
  podText : Option String
  /-- Texts of the `data-value` spans inside `cell--five` divs, document order. -/
  vesselSpans : List String
  /-- Texts of `data-value` spans inside a cell labelled Vessel/Voyage
  (the fallback locator region used by main.py). -/
  vesselVoyageCellSpans : List String
  /-- Texts of the `data-value` spans inside `cell--six` divs. -/
  facilitySpans : List String
  /-- Texts of `data-value` spans inside the `cell--six` tooltip
  (the fallback locator region used by main.py). -/
  facilityTooltipSpans : List String

/-- A page with no results region and no data fields rendered. -/
def emptyPage : PageState :=
  { resultsRegionText := none, etaText := none, podText := none,
    vesselSpans := [], vesselVoyageCellSpans := [],
    facilitySpans := [], facilityTooltipSpans := [] }

/-- Primary Vessel/Voyage locator: first `data-value` span in `cell--five`
whose `normalize-space(text())` is not exactly `N.A`. -/
def findVesselPrimary (p : PageState) : Option String :=
  (p.vesselSpans.filter (fun s => normalizeSpace s ≠ "N.A")).head?

/-- Fallback Vessel/Voyage locator (main.py): first `data-value` span in a
cell labelled Vessel or Voyage; no text predicate in the XPath. -/
def findVesselFallback (p : PageState) : Option String :=
  p.vesselVoyageCellSpans.head?

/-- Primary Equipment Handling Facility locator: first `data-value` span in
`cell--six` whose `normalize-space(text())` is not exactly `N.A`. -/
def findFacilityPrimary (p : PageState) : Option String :=
  (p.facilitySpans.filter (fun s => normalizeSpace s ≠ "N.A")).head?

/-- Fallback facility locator (main.py): first `data-value` span inside the
`cell--six` tooltip; no text predicate in the XPath. -/
def findFacilityTooltip (p : PageState) : Option String :=
  p.facilityTooltipSpans.head?

/-! ### get_results_snapshot -/

/-- `get_results_snapshot` (identical in app.py and main.py): text of the
results region, stripped, first 200 characters; empty string when the
element is absent (the `except` branch).  Totality of this definition is
the model of "never raises". -/
def get_results_snapshot (p : PageState) : String :=
  match p.resultsRegionText with
  | some t => pyTake (pyStrip t) 200
  | none => ""

/-! ### wait_for_change

`wait_for_change(driver, prev_snapshot, timeout)` polls the snapshot on a
fixed short interval until it is non-empty and differs from
`prev_snapshot`, or the deadline passes.  One tick of model time is one
polling interval; `snap t` is the snapshot the driver would return at tick
`t`; the loop called at tick `t0` with budget `timeout` polls at ticks
`t0, t0+1, ...` while fewer than `timeout` intervals have elapsed. -/

def waitLoop (snap : Nat → String) (prev : String) : Nat → Nat → Bool
  | _, 0 => false
  | t, r + 1 =>
      if snap t ≠ "" ∧ snap t ≠ prev then true else waitLoop snap prev (t + 1) r

/-- Number of snapshots the loop takes (each iteration of the `while` body
calls `get_results_snapshot` exactly once). -/
def waitPolls (snap : Nat → String) (prev : String) : Nat → Nat → Nat
  | _, 0 => 0
  | t, r + 1 =>
      if snap t ≠ "" ∧ snap t ≠ prev then 1 else 1 + waitPolls snap prev (t + 1) r

/-- `wait_for_change`, started at global tick `t0`.  A non-positive timeout
gives a budget of zero polls, matching `while time.time() < end` being
false at once. -/
def wait_for_change (snap : Nat → String) (t0 : Nat) (prev : String) (timeout : Int) : Bool :=
  waitLoop snap prev t0 timeout.toNat

/-- Snapshot count of a `wait_for_change` call. -/
def wait_polls (snap : Nat → String) (t0 : Nat) (prev : String) (timeout : Int) : Nat :=
  waitPolls snap prev t0 timeout.toNat

/-! ### extract_tracking_data

The tracking record is a Python dict: an association list from field name
to optional value, preserving insertion order.  All assignments in the
source write to keys already present in the initial dict, so `setField`
updates in place. -/

/-- A Python dict from column name to optional cell value. -/
abbrev Rec := List (String × Option String)

/-- The four tracking fields, in the order of the initial dict literal. -/
def fieldKeys : List String :=
  ["ETA", "Port of Discharge", "Vessel/Voyage", "Equipment Handling Facility"]

/-- The initial dict `{"ETA": None, ...}`. -/
def initialData : Rec := fieldKeys.map (fun k => (k, none))

/-- Assignment `d[k] = v` to an existing key: update in place, keep order. -/
def setField (d : Rec) (k : String) (v : Option String) : Rec :=
  d.map (fun kv => if kv.1 = k then (k, v) else kv)

/-- `eta_el.text.strip() or None`. -/
def stripOrNone (t : String) : Option String :=
  if pyStrip t = "" then none else some (pyStrip t)

/-- ETA: primary locator only, value `text.strip() or None` (no sentinel
check in the source). -/
def extractETA (p : PageState) (d : Rec) : Rec :=
  match p.etaText with
  | some t => setField d "ETA" (stripOrNone t)
  | none => d

/-- Port of Discharge: primary locator only, value `text.strip() or None`
(no sentinel check in the source). -/
def extractPOD (p : PageState) (d : Rec) : Rec :=
  match p.podText with
  | some t => setField d "Port of Discharge" (stripOrNone t)
  | none => d

/-- Vessel/Voyage, main.py: primary locator (with the exact-case `N.A`
XPath filter); on locator failure only, the fallback region, accepting
text that is non-empty and whose upper-case is not `N.A`. -/
def extractVessel (p : PageState) (d : Rec) : Rec :=
  match findVesselPrimary p with
  | some t =>
      if pyStrip t = "" then d else setField d "Vessel/Voyage" (some (pyStrip t))
  | none =>
      match findVesselFallback p with
      | some t2 =>
          if pyStrip t2 ≠ "" ∧ pyUpper (pyStrip t2) ≠ "N.A" then
            setField d "Vessel/Voyage" (some (pyStrip t2))
          else d
      | none => d

/-- Equipment Handling Facility, main.py: primary locator; on locator
failure only, the tooltip fallback with the upper-case `N.A` check. -/
def extractFacility (p : PageState) (d : Rec) : Rec :=
  match findFacilityPrimary p with
  | some t =>
      if pyStrip t = "" then d else setField d "Equipment Handling Facility" (some (pyStrip t))
  | none =>
      match findFacilityTooltip p with
      | some t2 =>
          if pyStrip t2 ≠ "" ∧ pyUpper (pyStrip t2) ≠ "N.A" then
            setField d "Equipment Handling Facility" (some (pyStrip t2))
          else d
      | none => d

/-- `extract_tracking_data` of main.py: the four try blocks in source
order.  Totality models "never raises". -/
def extract_tracking_data (p : PageState) : Rec :=
  extractFacility p (extractVessel p (extractPOD p (extractETA p initialData)))

/-- Vessel/Voyage, app.py: primary locator only, no fallback. -/
def extractVesselApp (p : PageState) (d : Rec) : Rec :=
  match findVesselPrimary p with
  | some t =>
      if pyStrip t = "" then d else setField d "Vessel/Voyage" (some (pyStrip t))
  | none => d

/-- Equipment Handling Facility, app.py: primary locator only, no fallback. -/
def extractFacilityApp (p : PageState) (d : Rec) : Rec :=
  match findFacilityPrimary p with
  | some t =>
      if pyStrip t = "" then d else setField d "Equipment Handling Facility" (some (pyStrip t))
  | none => d

/-- `extract_tracking_data` of app.py. -/
def extract_tracking_data_app (p : PageState) : Rec :=
  extractFacilityApp p (extractVesselApp p (extractPOD p (extractETA p initialData)))

/-! ### The orchestrators

`World` models the environment of a run: whether driver creation,
navigation and input location succeed, whether the i-th submission
succeeds, and the page state at every tick.  Pauses and sleeps advance the
tick; observable timed effects are recorded in a per-iteration trace. -/

structure World where
  createOk : Bool
  navOk : Bool
  inputFound : Bool
  /-- Whether the submission in iteration `i` raises (`False` = raises). -/
  submitOk : Nat → Bool
  /-- The DOM at tick `t`. -/
  pageAt : Nat → PageState

/-- The snapshot the driver yields at tick `t`. -/
def snapAt (w : World) : Nat → String := fun t => get_results_snapshot (w.pageAt t)

/-- Timed effects of one loop iteration, in program order.  `pause lo hi`
is a `tiny_pause(lo/1000, hi/1000)` call (bounds in milliseconds). -/
inductive Action where
  | submit (container : String)
  | waited (changed : Bool)
  | pause (lo hi : Nat)
  | extracted
  | tookSnapshot
deriving DecidableEq

/-- State threaded through the per-identifier loop. -/
structure LoopState where
  time : Nat
  prevSnapshot : String
  results : List Rec
deriving DecidableEq

/-- Tick at which the `changed` flag of the iteration starting in state
`st` is decided: submission pauses one tick, then the poll loop runs. -/
def iterWaitStart (st : LoopState) : Nat := st.time + 1

/-- The `changed` flag of the iteration starting in state `st`:
`wait_for_change(driver, prev_snapshot, timeout=6)`. -/
def iterChanged (w : World) (st : LoopState) : Bool :=
  wait_for_change (snapAt w) (iterWaitStart st) st.prevSnapshot 6

/-- Tick at which main.py's iteration extracts: after the poll loop and
the settle (or fallback) pause, each advancing the clock. -/
def mainExtractTime (w : World) (st : LoopState) : Nat :=
  iterWaitStart st + wait_polls (snapAt w) (iterWaitStart st) st.prevSnapshot 6 + 1

/-- Tick at which app.py's iteration extracts: the settle pause exists
only when `changed` is true. -/
def appExtractTime (w : World) (st : LoopState) : Nat :=
  let t2 := iterWaitStart st + wait_polls (snapAt w) (iterWaitStart st) st.prevSnapshot 6
  if iterChanged w st then t2 + 1 else t2

/-- One iteration of app.py's `track_containers` loop (lines 168-177):
submit, wait for change, settle pause only if changed, extract, append
`{"Container Number": container, **data}`, re-take the snapshot, pause. -/
def appIter (w : World) (i : Nat) (container : String) (st : LoopState) :
    Except String (LoopState × List Action) :=
  if w.submitOk i then
    let changed := iterChanged w st
    let t3 := appExtractTime w st
    let data := extract_tracking_data_app (w.pageAt t3)
    let row : Rec := ("Container Number", some container) :: data
    .ok ({ time := t3 + 1, prevSnapshot := snapAt w t3,
           results := st.results ++ [row] },
         [Action.pause 20 80, Action.submit container, Action.waited changed] ++
           (if changed then [Action.pause 120 350] else []) ++
           [Action.extracted, Action.tookSnapshot, Action.pause 400 900])
  else .error "submission failed"

/-- The loop of `track_containers` over the container list. -/
def appGo (w : World) : List String → Nat → LoopState → List Action →
    Except String (LoopState × List Action)
  | [], _, st, tr => .ok (st, tr)
  | c :: rest, i, st, tr =>
      match appIter w i c st with
      | .ok (st2, acts) => appGo w rest (i + 1) st2 (tr ++ acts)
      | .error e => .error e

/-- The body of app.py's `track_containers` `try` block: navigate, pause,
dismiss the cookie popup (never raises), locate the input control, take
the baseline snapshot, run the loop. -/
def appBody (w : World) (containers : List String) :
    Except String (List Rec × List Action) :=
  if w.navOk then
    if w.inputFound then
      match appGo w containers 0
          { time := 1, prevSnapshot := snapAt w 1, results := [] } [] with
      | .ok (st, tr) => .ok (st.results, tr)
      | .error e => .error e
    else .error "input control not found"
  else .error "navigation failed"

/-- Result of a whole run: the value or propagated exception, and how many
times `driver.quit()` ran. -/
structure RunResult where
  outcome : Except String (List Rec)
  quitCount : Nat

/-- app.py `track_containers`: create the driver (on failure the exception
propagates before the `try`, so `quit` never runs), then run the body with
`finally: driver.quit()` — one quit on every path out of the body. -/
def track_containers (w : World) (containers : List String) : RunResult :=
  if w.createOk then
    match appBody w containers with
    | .ok (res, _) => { outcome := .ok res, quitCount := 1 }
    | .error e => { outcome := .error e, quitCount := 1 }
  else { outcome := .error "driver creation failed", quitCount := 0 }

/-- app.py UI input parsing:
`[c.strip() for c in container_input.splitlines() if c.strip()]`. -/
def parse_containers (input : String) : List String :=
  ((pySplitlines input).map pyStrip).filter (fun s => s ≠ "")

/-! ### main.py: the file-driven variant -/

/-- An input spreadsheet: a header and one dict per row (pandas gives every
row every column; a missing value is `none`). -/
structure Df where
  cols : List String
  rows : List Rec

/-- Python `{**a, **b}`: keys of `a` in order, values overwritten by `b`
where the key is shared, then the keys of `b` absent from `a`, in order. -/
def pyMerge (a b : Rec) : Rec :=
  a.map (fun kv =>
    match List.lookup kv.1 b with
    | some v => (kv.1, v)
    | none => kv) ++
  b.filter (fun kv => (List.lookup kv.1 a).isNone)

/-- `str(cell)` of a row access: the string of a present value, the text
pandas prints for a missing one. -/
def cellStr : Option (Option String) → String
  | some (some s) => s
  | some none => "nan"
  | none => "nan"

/-- One iteration of main.py's loop (lines 245-270): submit, wait, settle
pause if changed else longer fallback pause, extract, append
`{**row.to_dict(), **data}`, re-take the snapshot, pause. -/
def mainIter (w : World) (i : Nat) (row : Rec) (st : LoopState) :
    Except String (LoopState × List Action) :=
  if w.submitOk i then
    let container := pyStrip (cellStr (List.lookup "Container Number" row))
    let changed := iterChanged w st
    let t3 := mainExtractTime w st
    let data := extract_tracking_data (w.pageAt t3)
    let merged : Rec := pyMerge row data
    .ok ({ time := t3 + 1, prevSnapshot := snapAt w t3,
           results := st.results ++ [merged] },
         [Action.pause 20 80, Action.submit container, Action.waited changed] ++
           (if changed then [Action.pause 120 350] else [Action.pause 400 900]) ++
           [Action.extracted, Action.tookSnapshot, Action.pause 500 1100])
  else .error "submission failed"

/-- The loop of `main` over the input rows. -/
def mainGo (w : World) : List Rec → Nat → LoopState → List Action →
    Except String (LoopState × List Action)
  | [], _, st, tr => .ok (st, tr)
  | row :: rest, i, st, tr =>
      match mainIter w i row st with
      | .ok (st2, acts) => mainGo w rest (i + 1) st2 (tr ++ acts)
      | .error e => .error e

/-- The body of main.py's `try` block. -/
def mainBody (w : World) (rows : List Rec) :
    Except String (List Rec × List Action) :=
  if w.navOk then
    if w.inputFound then
      match mainGo w rows 0
          { time := 1, prevSnapshot := snapAt w 1, results := [] } [] with
      | .ok (st, tr) => .ok (st.results, tr)
      | .error e => .error e
    else .error "input control not found"
  else .error "navigation failed"

/-- main.py `main()`: the column check raises before the driver exists;
driver creation failure also precedes the `try`; otherwise the body runs
under `finally: driver.quit()`. -/
def main_run (w : World) (df : Df) : RunResult :=
  if "Container Number" ∈ df.cols then
    if w.createOk then
      match mainBody w df.rows with
      | .ok (res, _) => { outcome := .ok res, quitCount := 1 }
      | .error e => { outcome := .error e, quitCount := 1 }
    else { outcome := .error "driver creation failed", quitCount := 0 }
  else
    { outcome := .error "Input Excel must contain a Container Number column",
      quitCount := 0 }

/-! ### Concrete worlds and inputs used by witnesses -/

/-- A world in which every step succeeds and the page never renders any
results (every snapshot is empty, so no change is ever observed). -/
def wAllOk : World :=
  { createOk := true, navOk := true, inputFound := true,
    submitOk := fun _ => true, pageAt := fun _ => emptyPage }

/-- The record produced for container `A` on a page with no results. -/
def recA : Rec := ("Container Number", some "A") :: initialData

/-- A page whose ETA span reads the sentinel text. -/
def pEtaNA : PageState := { emptyPage with etaText := some "N.A" }

/-- A page whose Port of Discharge span reads the sentinel text. -/
def pPodNA : PageState := { emptyPage with podText := some "N.A" }

/-- A page on which every field is in a sentinel or empty state. -/
def pSentinel : PageState :=
  { resultsRegionText := none, etaText := some "N.A", podText := some "",
    vesselSpans := ["N.A"], vesselVoyageCellSpans := [],
    facilitySpans := ["N.A"], facilityTooltipSpans := ["n.a"] }

/-- A page exercising the fallback paths: vessel primary filtered out with a
usable fallback, facility entirely absent, padded ETA text. -/
def pFallback : PageState :=
  { emptyPage with etaText := some " 2024-05-01 ", vesselSpans := ["N.A"], vesselVoyageCellSpans := [" MSC X / 123 "] }

/-- A page where the vessel primary locator succeeds with blank text while
the fallback region holds text: the source never consults the fallback. -/
def pVesselEmpty : PageState :=
  { emptyPage with vesselSpans := ["  "], vesselVoyageCellSpans := ["UNUSED"] }

/-- A two-column input row. -/
def rowEx : Rec := [("Container Number", some "MSDU5837828"), ("Note", some "hello")]

/-- An input table with the required column and no rows. -/
def dfEx : Df := { cols := ["Container Number"], rows := [] }

/-- An input table whose single row has a whitespace-only container cell. -/
def dfBlank : Df :=
  { cols := ["Container Number"], rows := [[("Container Number", some "   ")]] }

/-- The record main.py emits for the blank-cell row on an empty page. -/
def recBlank : Rec := ("Container Number", some "   ") :: initialData

/-- The loop state right after taking the baseline snapshot in `wAllOk`. -/
def stEx : LoopState := { time := 1, prevSnapshot := "", results := [] }

/-! ### Trace observation helpers -/

/-- The trace suffix after the (first) wait-for-change event. -/
def afterWaited : List Action → List Action
  | [] => []
  | Action.waited _ :: rest => rest
  | _ :: rest => afterWaited rest

/-- The trace prefix before the (first) extraction event. -/
def beforeExtract : List Action → List Action
  | [] => []
  | Action.extracted :: _ => []
  | a :: rest => a :: beforeExtract rest

/-- The actions between the wait-for-change return and the extraction. -/
def settleActions (tr : List Action) : List Action := beforeExtract (afterWaited tr)

/-- The result the wait-for-change event reported in a trace. -/
def waitedFlag : List Action → Option Bool
  | [] => none
  | Action.waited b :: _ => some b
  | _ :: rest => waitedFlag rest

/-- Final value of the ETA field as a function of the page. -/
def etaValue (p : PageState) : Option String :=
  match p.etaText with
  | some t => stripOrNone t
  | none => none

/-- Final value of the Port of Discharge field. -/
def podValue (p : PageState) : Option String :=
  match p.podText with
  | some t => stripOrNone t
  | none => none

/-- Final value of the Vessel/Voyage field in main.py. -/
def vesselValue (p : PageState) : Option String :=
  match findVesselPrimary p with
  | some t => if pyStrip t = "" then none else some (pyStrip t)
  | none =>
      match findVesselFallback p with
      | some t2 =>
          if pyStrip t2 ≠ "" ∧ pyUpper (pyStrip t2) ≠ "N.A" then some (pyStrip t2) else none
      | none => none

/-- Final value of the Equipment Handling Facility field in main.py. -/
def facilityValue (p : PageState) : Option String :=
  match findFacilityPrimary p with
  | some t => if pyStrip t = "" then none else some (pyStrip t)
  | none =>
      match findFacilityTooltip p with
      | some t2 =>
          if pyStrip t2 ≠ "" ∧ pyUpper (pyStrip t2) ≠ "N.A" then some (pyStrip t2) else none
      | none => none

/-- Final value of the Vessel/Voyage field in app.py (no fallback). -/
def vesselValueApp (p : PageState) : Option String :=
  match findVesselPrimary p with
  | some t => if pyStrip t = "" then none else some (pyStrip t)
  | none => none

/-- Final value of the Equipment Handling Facility field in app.py. -/
def facilityValueApp (p : PageState) : Option String :=
  match findFacilityPrimary p with
  | some t => if pyStrip t = "" then none else some (pyStrip t)
  | none => none

/-! ### Association-list lemmas -/

theorem lookup_cons (k k1 : String) (v1 : Option String) (l : Rec) :
    List.lookup k ((k1, v1) :: l) = if k = k1 then some v1 else List.lookup k l := by
  by_cases h : k = k1
  · subst h; simp [List.lookup]
  · have hb : (k == k1) = false := beq_eq_false_iff_ne.mpr h
    simp [List.lookup, hb, h]

theorem lookup_eq_none_iff (k : String) (l : Rec) :
    List.lookup k l = none ↔ k ∉ l.map Prod.fst := by
  induction l with
  | nil => simp
  | cons kv rest ih =>
    obtain ⟨k1, v1⟩ := kv
    by_cases h : k = k1 <;> simp [lookup_cons, h, ih]

theorem setField_keys (d : Rec) (k : String) (v : Option String) :
    (setField d k v).map Prod.fst = d.map Prod.fst := by
  induction d with
  | nil => rfl
  | cons kv rest ih =>
    by_cases h : kv.1 = k
    · simpa [setField, h] using congrArg (List.cons k) ih
    · simpa [setField, h] using congrArg (List.cons kv.1) ih

theorem lookup_setField_self (d : Rec) (k : String) (v : Option String)
    (h : k ∈ d.map Prod.fst) : List.lookup k (setField d k v) = some v := by
  induction d with
  | nil => simp at h
  | cons kv rest ih =>
    obtain ⟨k1, v1⟩ := kv
    by_cases hk : k1 = k
    · subst hk; simp [setField, lookup_cons]
    · have hmem : k ∈ rest.map Prod.fst := by
        simpa [Ne.symm hk] using h
      simpa [setField, hk, lookup_cons, Ne.symm hk] using ih hmem

theorem lookup_setField_ne (d : Rec) (k k2 : String) (v : Option String)
    (h : k ≠ k2) : List.lookup k (setField d k2 v) = List.lookup k d := by
  induction d with
  | nil => rfl
  | cons kv rest ih =>
    obtain ⟨k1, v1⟩ := kv
    show List.lookup k ((if k1 = k2 then (k2, v) else (k1, v1)) :: setField rest k2 v) =
      List.lookup k ((k1, v1) :: rest)
    by_cases hk : k1 = k2
    · subst hk
      rw [if_pos rfl, lookup_cons, if_neg h, ih, lookup_cons, if_neg h]
    · rw [if_neg hk, lookup_cons, ih, lookup_cons]

/-! ### Key preservation and per-field characterisation of the extractor -/

theorem extractETA_keys (p : PageState) (d : Rec) :
    (extractETA p d).map Prod.fst = d.map Prod.fst := by
  unfold extractETA
  cases p.etaText with
  | some t => exact setField_keys d _ _
  | none => rfl

theorem extractPOD_keys (p : PageState) (d : Rec) :
    (extractPOD p d).map Prod.fst = d.map Prod.fst := by
  unfold extractPOD
  cases p.podText with
  | some t => exact setField_keys d _ _
  | none => rfl

theorem extractVessel_keys (p : PageState) (d : Rec) :
    (extractVessel p d).map Prod.fst = d.map Prod.fst := by
  rcases hv : findVesselPrimary p with _ | t
  · rcases hf : findVesselFallback p with _ | t2
    · simp [extractVessel, hv, hf]
    · by_cases hc : pyStrip t2 ≠ "" ∧ pyUpper (pyStrip t2) ≠ "N.A"
      · simp [extractVessel, hv, hf, hc, setField_keys]
      · simp [extractVessel, hv, hf, hc]
  · by_cases hs : pyStrip t = ""
    · simp [extractVessel, hv, hs]
    · simp [extractVessel, hv, hs, setField_keys]

theorem extractFacility_keys (p : PageState) (d : Rec) :
    (extractFacility p d).map Prod.fst = d.map Prod.fst := by
  rcases hv : findFacilityPrimary p with _ | t
  · rcases hf : findFacilityTooltip p with _ | t2
    · simp [extractFacility, hv, hf]
    · by_cases hc : pyStrip t2 ≠ "" ∧ pyUpper (pyStrip t2) ≠ "N.A"
      · simp [extractFacility, hv, hf, hc, setField_keys]
      · simp [extractFacility, hv, hf, hc]
  · by_cases hs : pyStrip t = ""
    · simp [extractFacility, hv, hs]
    · simp [extractFacility, hv, hs, setField_keys]

theorem extractVesselApp_keys (p : PageState) (d : Rec) :
    (extractVesselApp p d).map Prod.fst = d.map Prod.fst := by
  rcases hv : findVesselPrimary p with _ | t
  · simp [extractVesselApp, hv]
  · by_cases hs : pyStrip t = ""
    · simp [extractVesselApp, hv, hs]
    · simp [extractVesselApp, hv, hs, setField_keys]

theorem extractFacilityApp_keys (p : PageState) (d : Rec) :
    (extractFacilityApp p d).map Prod.fst = d.map Prod.fst := by
  rcases hv : findFacilityPrimary p with _ | t
  · simp [extractFacilityApp, hv]
  · by_cases hs : pyStrip t = ""
    · simp [extractFacilityApp, hv, hs]
    · simp [extractFacilityApp, hv, hs, setField_keys]

theorem extract_keys (p : PageState) :
    (extract_tracking_data p).map Prod.fst = fieldKeys := by
  unfold extract_tracking_data
  rw [extractFacility_keys, extractVessel_keys, extractPOD_keys, extractETA_keys]
  rfl

theorem extract_app_keys (p : PageState) :
    (extract_tracking_data_app p).map Prod.fst = fieldKeys := by
  unfold extract_tracking_data_app
  rw [extractFacilityApp_keys, extractVesselApp_keys, extractPOD_keys, extractETA_keys]
  rfl

theorem lookup_extractETA_ne (p : PageState) (d : Rec) (k : String) (h : k ≠ "ETA") :
    List.lookup k (extractETA p d) = List.lookup k d := by
  unfold extractETA
  cases p.etaText with
  | some t => exact lookup_setField_ne d k _ _ h
  | none => rfl

theorem lookup_extractPOD_ne (p : PageState) (d : Rec) (k : String)
    (h : k ≠ "Port of Discharge") :
    List.lookup k (extractPOD p d) = List.lookup k d := by
  unfold extractPOD
  cases p.podText with
  | some t => exact lookup_setField_ne d k _ _ h
  | none => rfl

theorem lookup_extractVessel_ne (p : PageState) (d : Rec) (k : String)
    (h : k ≠ "Vessel/Voyage") :
    List.lookup k (extractVessel p d) = List.lookup k d := by
  rcases hv : findVesselPrimary p with _ | t
  · rcases hf : findVesselFallback p with _ | t2
    · simp [extractVessel, hv, hf]
    · by_cases hc : pyStrip t2 ≠ "" ∧ pyUpper (pyStrip t2) ≠ "N.A"
      · simp [extractVessel, hv, hf, hc, lookup_setField_ne d k _ _ h]
      · simp [extractVessel, hv, hf, hc]
  · by_cases hs : pyStrip t = ""
    · simp [extractVessel, hv, hs]
    · simp [extractVessel, hv, hs, lookup_setField_ne d k _ _ h]

theorem lookup_extractFacility_ne (p : PageState) (d : Rec) (k : String)
    (h : k ≠ "Equipment Handling Facility") :
    List.lookup k (extractFacility p d) = List.lookup k d := by
  rcases hv : findFacilityPrimary p with _ | t
  · rcases hf : findFacilityTooltip p with _ | t2
    · simp [extractFacility, hv, hf]
    · by_cases hc : pyStrip t2 ≠ "" ∧ pyUpper (pyStrip t2) ≠ "N.A"
      · simp [extractFacility, hv, hf, hc, lookup_setField_ne d k _ _ h]
      · simp [extractFacility, hv, hf, hc]
  · by_cases hs : pyStrip t = ""
    · simp [extractFacility, hv, hs]
    · simp [extractFacility, hv, hs, lookup_setField_ne d k _ _ h]

theorem lookup_extractVesselApp_ne (p : PageState) (d : Rec) (k : String)
    (h : k ≠ "Vessel/Voyage") :
    List.lookup k (extractVesselApp p d) = List.lookup k d := by
  rcases hv : findVesselPrimary p with _ | t
  · simp [extractVesselApp, hv]
  · by_cases hs : pyStrip t = ""
    · simp [extractVesselApp, hv, hs]
    · simp [extractVesselApp, hv, hs, lookup_setField_ne d k _ _ h]

theorem lookup_extractFacilityApp_ne (p : PageState) (d : Rec) (k : String)
    (h : k ≠ "Equipment Handling Facility") :
    List.lookup k (extractFacilityApp p d) = List.lookup k d := by
  rcases hv : findFacilityPrimary p with _ | t
  · simp [extractFacilityApp, hv]
  · by_cases hs : pyStrip t = ""
    · simp [extractFacilityApp, hv, hs]
    · simp [extractFacilityApp, hv, hs, lookup_setField_ne d k _ _ h]

theorem extract_eta_eq (p : PageState) :
    List.lookup "ETA" (extract_tracking_data p) = some (etaValue p) := by
  unfold extract_tracking_data
  rw [lookup_extractFacility_ne _ _ _ (by decide), lookup_extractVessel_ne _ _ _ (by decide),
    lookup_extractPOD_ne _ _ _ (by decide)]
  rcases he : p.etaText with _ | t
  · simp only [extractETA, he, etaValue]
    decide
  · simp only [extractETA, he, etaValue]
    exact lookup_setField_self _ _ _ (by decide)

theorem extract_pod_eq (p : PageState) :
    List.lookup "Port of Discharge" (extract_tracking_data p) = some (podValue p) := by
  unfold extract_tracking_data
  rw [lookup_extractFacility_ne _ _ _ (by decide), lookup_extractVessel_ne _ _ _ (by decide)]
  rcases hp : p.podText with _ | t
  · simp only [extractPOD, hp, podValue]
    rw [lookup_extractETA_ne _ _ _ (by decide)]
    decide
  · simp only [extractPOD, hp, podValue]
    apply lookup_setField_self
    rw [extractETA_keys]
    decide

theorem base_lookup_vessel (p : PageState) :
    List.lookup "Vessel/Voyage" (extractPOD p (extractETA p initialData)) = some none := by
  rw [lookup_extractPOD_ne _ _ _ (by decide), lookup_extractETA_ne _ _ _ (by decide)]
  decide

theorem vessel_mem_base (p : PageState) :
    "Vessel/Voyage" ∈ (extractPOD p (extractETA p initialData)).map Prod.fst := by
  rw [extractPOD_keys, extractETA_keys]
  decide

theorem extract_vessel_eq (p : PageState) :
    List.lookup "Vessel/Voyage" (extract_tracking_data p) = some (vesselValue p) := by
  unfold extract_tracking_data
  rw [lookup_extractFacility_ne _ _ _ (by decide)]
  rcases hv : findVesselPrimary p with _ | t
  · rcases hf : findVesselFallback p with _ | t2
    · simp only [extractVessel, hv, hf, vesselValue]
      exact base_lookup_vessel p
    · by_cases hc : pyStrip t2 ≠ "" ∧ pyUpper (pyStrip t2) ≠ "N.A"
      · simp only [extractVessel, hv, hf, vesselValue]
        rw [if_pos hc, if_pos hc]
        exact lookup_setField_self _ _ _ (vessel_mem_base p)
      · simp only [extractVessel, hv, hf, hc, if_neg, vesselValue]
        exact base_lookup_vessel p
  · by_cases hs : pyStrip t = ""
    · simp only [extractVessel, hv, hs, if_pos, vesselValue]
      exact base_lookup_vessel p
    · simp only [extractVessel, hv, hs, if_neg, vesselValue]
      exact lookup_setField_self _ _ _ (vessel_mem_base p)

theorem base_lookup_facility (p : PageState) :
    List.lookup "Equipment Handling Facility"
      (extractVessel p (extractPOD p (extractETA p initialData))) = some none := by
  rw [lookup_extractVessel_ne _ _ _ (by decide), lookup_extractPOD_ne _ _ _ (by decide),
    lookup_extractETA_ne _ _ _ (by decide)]
  decide

theorem facility_mem_base (p : PageState) :
    "Equipment Handling Facility" ∈
      (extractVessel p (extractPOD p (extractETA p initialData))).map Prod.fst := by
  rw [extractVessel_keys, extractPOD_keys, extractETA_keys]
  decide

theorem extract_facility_eq (p : PageState) :
    List.lookup "Equipment Handling Facility" (extract_tracking_data p) =
      some (facilityValue p) := by
  unfold extract_tracking_data
  rcases hv : findFacilityPrimary p with _ | t
  · rcases hf : findFacilityTooltip p with _ | t2
    · simp only [extractFacility, hv, hf, facilityValue]
      exact base_lookup_facility p
    · by_cases hc : pyStrip t2 ≠ "" ∧ pyUpper (pyStrip t2) ≠ "N.A"
      · simp only [extractFacility, hv, hf, facilityValue]
        rw [if_pos hc, if_pos hc]
        exact lookup_setField_self _ _ _ (facility_mem_base p)
      · simp only [extractFacility, hv, hf, hc, if_neg, facilityValue]
        exact base_lookup_facility p
  · by_cases hs : pyStrip t = ""
    · simp only [extractFacility, hv, hs, if_pos, facilityValue]
      exact base_lookup_facility p
    · simp only [extractFacility, hv, hs, if_neg, facilityValue]
      exact lookup_setField_self _ _ _ (facility_mem_base p)

theorem extract_app_eta_eq (p : PageState) :
    List.lookup "ETA" (extract_tracking_data_app p) = some (etaValue p) := by
  unfold extract_tracking_data_app
  rw [lookup_extractFacilityApp_ne _ _ _ (by decide),
    lookup_extractVesselApp_ne _ _ _ (by decide), lookup_extractPOD_ne _ _ _ (by decide)]
  rcases he : p.etaText with _ | t
  · simp only [extractETA, he, etaValue]
    decide
  · simp only [extractETA, he, etaValue]
    exact lookup_setField_self _ _ _ (by decide)

theorem extract_app_pod_eq (p : PageState) :
    List.lookup "Port of Discharge" (extract_tracking_data_app p) = some (podValue p) := by
  unfold extract_tracking_data_app
  rw [lookup_extractFacilityApp_ne _ _ _ (by decide),
    lookup_extractVesselApp_ne _ _ _ (by decide)]
  rcases hp : p.podText with _ | t
  · simp only [extractPOD, hp, podValue]
    rw [lookup_extractETA_ne _ _ _ (by decide)]
    decide
  · simp only [extractPOD, hp, podValue]
    apply lookup_setField_self
    rw [extractETA_keys]
    decide

theorem extract_app_vessel_eq (p : PageState) :
    List.lookup "Vessel/Voyage" (extract_tracking_data_app p) = some (vesselValueApp p) := by
  unfold extract_tracking_data_app
  rw [lookup_extractFacilityApp_ne _ _ _ (by decide)]
  rcases hv : findVesselPrimary p with _ | t
  · simp only [extractVesselApp, hv, vesselValueApp]
    exact base_lookup_vessel p
  · by_cases hs : pyStrip t = ""
    · simp only [extractVesselApp, hv, hs, if_pos, vesselValueApp]
      exact base_lookup_vessel p
    · simp only [extractVesselApp, hv, hs, if_neg, vesselValueApp]
      exact lookup_setField_self _ _ _ (vessel_mem_base p)

theorem base_lookup_facility_app (p : PageState) :
    List.lookup "Equipment Handling Facility"
      (extractVesselApp p (extractPOD p (extractETA p initialData))) = some none := by
  rw [lookup_extractVesselApp_ne _ _ _ (by decide), lookup_extractPOD_ne _ _ _ (by decide),
    lookup_extractETA_ne _ _ _ (by decide)]
  decide

theorem facility_mem_base_app (p : PageState) :
    "Equipment Handling Facility" ∈
      (extractVesselApp p (extractPOD p (extractETA p initialData))).map Prod.fst := by
  rw [extractVesselApp_keys, extractPOD_keys, extractETA_keys]
  decide

theorem extract_app_facility_eq (p : PageState) :
    List.lookup "Equipment Handling Facility" (extract_tracking_data_app p) =
      some (facilityValueApp p) := by
  unfold extract_tracking_data_app
  rcases hv : findFacilityPrimary p with _ | t
  · simp only [extractFacilityApp, hv, facilityValueApp]
    exact base_lookup_facility_app p
  · by_cases hs : pyStrip t = ""
    · simp only [extractFacilityApp, hv, hs, if_pos, facilityValueApp]
      exact base_lookup_facility_app p
    · simp only [extractFacilityApp, hv, hs, if_neg, facilityValueApp]
      exact lookup_setField_self _ _ _ (facility_mem_base_app p)

/-! ### Behaviour of the polling loop -/

theorem waitLoop_true_iff (snap : Nat → String) (prev : String) :
    ∀ (r t : Nat), waitLoop snap prev t r = true ↔
      ∃ i, i < r ∧ snap (t + i) ≠ "" ∧ snap (t + i) ≠ prev := by
  intro r
  induction r with
  | zero =>
    intro t
    simp [waitLoop]
  | succ r ih =>
    intro t
    by_cases h : snap t ≠ "" ∧ snap t ≠ prev
    · constructor
      · intro _
        exact ⟨0, Nat.succ_pos r, by simpa using h.1, by simpa using h.2⟩
      · intro _
        simp [waitLoop, h]
    · have hstep : waitLoop snap prev t (r + 1) = waitLoop snap prev (t + 1) r := by
        simp [waitLoop, h]
      rw [hstep, ih (t + 1)]
      constructor
      · rintro ⟨i, hi, h1, h2⟩
        refine ⟨i + 1, by omega, ?_, ?_⟩
        · rw [show t + (i + 1) = t + 1 + i by omega]; exact h1
        · rw [show t + (i + 1) = t + 1 + i by omega]; exact h2
      · rintro ⟨i, hi, h1, h2⟩
        cases i with
        | zero =>
          simp only [Nat.add_zero] at h1 h2
          exact absurd ⟨h1, h2⟩ h
        | succ j =>
          refine ⟨j, by omega, ?_, ?_⟩
          · rw [show t + 1 + j = t + (j + 1) by omega]; exact h1
          · rw [show t + 1 + j = t + (j + 1) by omega]; exact h2

theorem waitPolls_le (snap : Nat → String) (prev : String) :
    ∀ (r t : Nat), waitPolls snap prev t r ≤ r := by
  intro r
  induction r with
  | zero =>
    intro t
    simp [waitPolls]
  | succ r ih =>
    intro t
    by_cases h : snap t ≠ "" ∧ snap t ≠ prev
    · simp [waitPolls, h]
    · have := ih (t + 1)
      simp only [waitPolls, if_neg h]
      omega

/-! ### Behaviour of the orchestrator loops -/

theorem appIter_ok (w : World) (i : Nat) (c : String) (st : LoopState)
    (h : w.submitOk i = true) :
    appIter w i c st = .ok
      ({ time := appExtractTime w st + 1,
         prevSnapshot := snapAt w (appExtractTime w st),
         results := st.results ++
           [("Container Number", some c) ::
             extract_tracking_data_app (w.pageAt (appExtractTime w st))] },
       [Action.pause 20 80, Action.submit c, Action.waited (iterChanged w st)] ++
         (if iterChanged w st then [Action.pause 120 350] else []) ++
         [Action.extracted, Action.tookSnapshot, Action.pause 400 900]) := by
  simp [appIter, h]

theorem appGo_results (w : World) :
    ∀ (cs : List String) (i : Nat) (st : LoopState) (tr : List Action)
      (st2 : LoopState) (tr2 : List Action),
      appGo w cs i st tr = .ok (st2, tr2) →
      st2.results.map (List.lookup "Container Number") =
        st.results.map (List.lookup "Container Number") ++
          cs.map (fun c => some (some c)) := by
  intro cs
  induction cs with
  | nil =>
    intro i st tr st2 tr2 h
    simp only [appGo, Except.ok.injEq, Prod.mk.injEq] at h
    rw [← h.1]
    simp
  | cons c rest ih =>
    intro i st tr st2 tr2 h
    unfold appGo at h
    cases hs : w.submitOk i with
    | false => simp [appIter, hs] at h
    | true =>
      rw [appIter_ok w i c st hs] at h
      have hres := ih (i + 1) _ _ st2 tr2 h
      rw [hres]
      simp [lookup_cons]

theorem mainIter_ok (w : World) (i : Nat) (row : Rec) (st : LoopState)
    (h : w.submitOk i = true) :
    mainIter w i row st = .ok
      ({ time := mainExtractTime w st + 1,
         prevSnapshot := snapAt w (mainExtractTime w st),
         results := st.results ++
           [pyMerge row (extract_tracking_data (w.pageAt (mainExtractTime w st)))] },
       [Action.pause 20 80,
        Action.submit (pyStrip (cellStr (List.lookup "Container Number" row))),
        Action.waited (iterChanged w st)] ++
         (if iterChanged w st then [Action.pause 120 350] else [Action.pause 400 900]) ++
         [Action.extracted, Action.tookSnapshot, Action.pause 500 1100]) := by
  simp [mainIter, h]

theorem mainGo_results_length (w : World) :
    ∀ (rows : List Rec) (i : Nat) (st : LoopState) (tr : List Action)
      (st2 : LoopState) (tr2 : List Action),
      mainGo w rows i st tr = .ok (st2, tr2) →
      st2.results.length = st.results.length + rows.length := by
  intro rows
  induction rows with
  | nil =>
    intro i st tr st2 tr2 h
    simp only [mainGo, Except.ok.injEq, Prod.mk.injEq] at h
    rw [← h.1]
    simp
  | cons row rest ih =>
    intro i st tr st2 tr2 h
    unfold mainGo at h
    cases hs : w.submitOk i with
    | false => simp [mainIter, hs] at h
    | true =>
      rw [mainIter_ok w i row st hs] at h
      have hlen := ih (i + 1) _ _ st2 tr2 h
      simp only [List.length_append, List.length_cons, List.length_nil] at hlen
      simp only [List.length_cons]
      omega

/-- A successful run of main.py's `main` emits exactly one record per input
row: blank cells are neither trimmed away nor deduplicated. -/
theorem main_ok_length (w : World) (df : Df) (t : List Rec)
    (h : (main_run w df).outcome = .ok t) :
    t.length = df.rows.length := by
  unfold main_run at h
  split at h
  · split at h
    · split at h
      next res snd heq =>
        simp only [Except.ok.injEq] at h
        subst h
        unfold mainBody at heq
        split at heq
        · split at heq
          · split at heq
            next st tr2 heq2 =>
              simp only [Except.ok.injEq, Prod.mk.injEq] at heq
              obtain ⟨hres, -⟩ := heq
              have hlen := mainGo_results_length w df.rows 0 _ [] st tr2 heq2
              rw [← hres]
              simpa using hlen
            next e heq3 => simp at heq
          · simp at heq
        · simp at heq
      next e heq => simp at h
    · simp at h
  · simp at h

theorem parse_containers_props (input : String) :
    ∀ s ∈ parse_containers input, s ≠ "" ∧ ∃ line ∈ pySplitlines input, s = pyStrip line := by
  intro s hs
  unfold parse_containers at hs
  rw [List.mem_filter] at hs
  obtain ⟨hmem, hne⟩ := hs
  rw [List.mem_map] at hmem
  obtain ⟨line, hline, rfl⟩ := hmem
  exact ⟨by simpa using hne, line, hline, rfl⟩

/-! ### Python dict-merge lemmas -/

theorem lookup_append (k : String) (l1 l2 : Rec) :
    List.lookup k (l1 ++ l2) =
      match List.lookup k l1 with
      | some v => some v
      | none => List.lookup k l2 := by
  induction l1 with
  | nil => rfl
  | cons kv rest ih =>
    obtain ⟨k1, v1⟩ := kv
    by_cases h : k = k1 <;> simp [lookup_cons, h, ih]

theorem lookup_map_overwrite (b : Rec) (k : String) :
    ∀ a : Rec,
      List.lookup k (a.map (fun kv =>
        match List.lookup kv.1 b with
        | some v => (kv.1, v)
        | none => kv)) =
      (List.lookup k a).map (fun v =>
        match List.lookup k b with
        | some w => w
        | none => v) := by
  intro a
  induction a with
  | nil => rfl
  | cons kv rest ih =>
    obtain ⟨k1, v1⟩ := kv
    by_cases h : k = k1
    · subst h
      cases hb : List.lookup k b <;> simp [hb, lookup_cons]
    · cases hb : List.lookup k1 b <;> simp [hb, lookup_cons, h, ih]

theorem lookup_filter_not_in_a (a : Rec) (k : String) (ha : List.lookup k a = none) :
    ∀ b : Rec,
      List.lookup k (b.filter (fun kv => (List.lookup kv.1 a).isNone)) =
      List.lookup k b := by
  intro b
  induction b with
  | nil => rfl
  | cons kv rest ih =>
    obtain ⟨k1, v1⟩ := kv
    by_cases h : k = k1
    · subst h
      simp [List.filter_cons, ha, lookup_cons, ih]
    · cases hp : (List.lookup k1 a).isNone <;>
        simp [List.filter_cons, hp, lookup_cons, h, ih]

theorem pyMerge_lookup (a b : Rec) (k : String) :
    List.lookup k (pyMerge a b) =
      match List.lookup k b with
      | some w => some w
      | none => List.lookup k a := by
  unfold pyMerge
  rw [lookup_append, lookup_map_overwrite]
  cases hA : List.lookup k a with
  | none =>
    simp only [Option.map_none']
    rw [lookup_filter_not_in_a a k hA b]
    cases hB : List.lookup k b <;> simp [hA]
  | some v =>
    cases hB : List.lookup k b <;> simp [hA, hB]

theorem pyMerge_keys (a b : Rec) :
    (pyMerge a b).map Prod.fst =
      a.map Prod.fst ++ (b.map Prod.fst).filter (fun k => (List.lookup k a).isNone) := by
  unfold pyMerge
  rw [List.map_append]
  congr 1
  · induction a with
    | nil => rfl
    | cons kv rest ih =>
      obtain ⟨k1, v1⟩ := kv
      cases hb : List.lookup k1 b <;> simp [hb, ih]
  · induction b with
    | nil => rfl
    | cons kv rest ih =>
      obtain ⟨k1, v1⟩ := kv
      cases hp : (List.lookup k1 a).isNone <;> simp [List.filter_cons, hp, ih]

/-- When every span in a region carries the exact sentinel, the XPath
text-predicate filter leaves nothing. -/
theorem filter_sentinel_nil :
    ∀ l : List String, (∀ s ∈ l, normalizeSpace s = "N.A") →
      l.filter (fun s => normalizeSpace s ≠ "N.A") = [] := by
  intro l
  induction l with
  | nil => intro _; rfl
  | cons a rest ih =>
    intro hall
    have ha := hall a (by simp)
    have hrest : ∀ s ∈ rest, normalizeSpace s = "N.A" := by
      intro s hs
      exact hall s (List.mem_cons_of_mem a hs)
    have ih2 := ih hrest
    simp only [ne_eq, decide_not] at ih2
    simp [List.filter_cons, ha, ih2]

/-- A successful run of app.py's `track_containers` emits exactly one
record per input container, in order, each holding its container number. -/
theorem track_ok_results (w : World) (cs : List String) (t : List Rec)
    (h : (track_containers w cs).outcome = .ok t) :
    t.map (List.lookup "Container Number") = cs.map (fun c => some (some c)) := by
  unfold track_containers at h
  split at h
  · split at h
    next res snd heq =>
      simp only [Except.ok.injEq] at h
      subst h
      unfold appBody at heq
      split at heq
      · split at heq
        · split at heq
          next st tr2 heq2 =>
            simp only [Except.ok.injEq, Prod.mk.injEq] at heq
            obtain ⟨hres, -⟩ := heq
            have hmap := appGo_results w cs 0 _ [] st tr2 heq2
            rw [← hres]
            simpa using hmap
          next e heq3 => simp at heq
        · simp at heq
      · simp at heq
    next e heq => simp at h
  · simp at h

/-! ### Claim theorems -/

/-- C1 (amended): per variant.  A successful UI run (`parse_containers`
followed by `track_containers`) returns a table with exactly one record per
trimmed, non-empty input line, counted with multiplicity — duplicates are
not collapsed — in input order, each record holding its container number;
there blank entries are discarded after trimming by the UI parse.  A
successful file-driven run (`main_run`) returns exactly one record per
input row: it neither discards rows whose container cell is blank after
trimming nor deduplicates. -/
theorem C1_run_length_order (w : World) (input : String) (t : List Rec)
    (h : (track_containers w (parse_containers input)).outcome = .ok t) :
    t.length = (parse_containers input).length ∧
    t.map (List.lookup "Container Number") =
      (parse_containers input).map (fun c => some (some c)) ∧
    (∀ s ∈ parse_containers input, s ≠ "" ∧ ∃ line ∈ pySplitlines input, s = pyStrip line) ∧
    ∀ (df : Df) (t2 : List Rec),
      (main_run w df).outcome = .ok t2 → t2.length = df.rows.length := by
  have hmap := track_ok_results w (parse_containers input) t h
  refine ⟨?_, hmap, parse_containers_props input, fun df t2 h2 => main_ok_length w df t2 h2⟩
  have := congrArg List.length hmap
  simpa using this

/-- C1 witness: the one-container input yields one record carrying it, and
the file-driven run on a table whose only row has a whitespace-only
container cell still yields one record. -/
theorem C1_witness :
    [recA].length = (parse_containers "A").length ∧
    [recA].map (List.lookup "Container Number") =
      (parse_containers "A").map (fun c => some (some c)) ∧
    (∀ s ∈ parse_containers "A", s ≠ "" ∧ ∃ line ∈ pySplitlines "A", s = pyStrip line) ∧
    [recBlank].length = dfBlank.rows.length := by
  have H := C1_run_length_order wAllOk "A" [recA] rfl
  exact ⟨H.1, H.2.1, H.2.2.1, H.2.2.2 dfBlank [recBlank] rfl⟩

/-- C1 counterexample: the claimed count of distinct identifiers is wrong —
the input with a duplicated identifier yields two records although only one
distinct identifier was supplied; the run does not deduplicate. -/
theorem C1_counterexample :
    (track_containers wAllOk (parse_containers "A\nA")).outcome = .ok [recA, recA] ∧
    (parse_containers "A\nA").dedup.length = 1 ∧
    [recA, recA].length ≠ (parse_containers "A\nA").dedup.length :=
  ⟨rfl, by decide, by decide⟩

/-- C2: `wait_for_change` returns true exactly when one of the snapshots
polled before the deadline (fewer than `timeout` intervals after the call)
is non-empty and differs from `previous_snapshot`; otherwise it returns
false once the deadline passes; the loop takes at most `timeout` polls, so
it never blocks indefinitely. -/
theorem C2_wait_for_change_spec (snap : Nat → String) (t0 : Nat) (prev : String)
    (timeout : Int) :
    (wait_for_change snap t0 prev timeout = true ↔
      ∃ i, i < timeout.toNat ∧ snap (t0 + i) ≠ "" ∧ snap (t0 + i) ≠ prev) ∧
    wait_polls snap t0 prev timeout ≤ timeout.toNat :=
  ⟨waitLoop_true_iff snap prev timeout.toNat t0, waitPolls_le snap prev timeout.toNat t0⟩

/-- C3 (amended): empty text yields an absent field for every field, but the
sentinel is screened only for Vessel/Voyage and Equipment Handling Facility
— exact-case `N.A` by the primary locator filter, any-case by the fallback
check.  ETA and Port of Discharge apply no sentinel check and store `N.A`
as a regular non-absent value. -/
theorem C3_sentinel_behavior (p : PageState) :
    (p.etaText = some "N.A" →
      List.lookup "ETA" (extract_tracking_data p) = some (some "N.A")) ∧
    (p.podText = some "" →
      List.lookup "Port of Discharge" (extract_tracking_data p) = some none) ∧
    ((∀ s ∈ p.vesselSpans, normalizeSpace s = "N.A") → p.vesselVoyageCellSpans = [] →
      List.lookup "Vessel/Voyage" (extract_tracking_data p) = some none) ∧
    (∀ t2, findFacilityPrimary p = none → findFacilityTooltip p = some t2 →
      pyUpper (pyStrip t2) = "N.A" →
      List.lookup "Equipment Handling Facility" (extract_tracking_data p) = some none) := by
  refine ⟨?_, ?_, ?_, ?_⟩
  · intro h
    rw [extract_eta_eq]
    simp only [etaValue, h]
    decide
  · intro h
    rw [extract_pod_eq]
    simp only [podValue, h]
    decide
  · intro hall hfb
    have hp : findVesselPrimary p = none := by
      unfold findVesselPrimary
      rw [filter_sentinel_nil p.vesselSpans hall]
      rfl
    have hf : findVesselFallback p = none := by
      unfold findVesselFallback
      rw [hfb]
      rfl
    rw [extract_vessel_eq]
    simp only [vesselValue, hp, hf]
  · intro t2 hp hf hu
    rw [extract_facility_eq]
    simp only [facilityValue, hp, hf]
    rw [if_neg]
    intro hc
    exact hc.2 hu

/-- C3 witness: on a page where all four fields are in an empty or sentinel
state, the two filtered fields come back absent while ETA keeps the raw
sentinel string and the empty Port of Discharge is absent. -/
theorem C3_witness :
    List.lookup "ETA" (extract_tracking_data pSentinel) = some (some "N.A") ∧
    List.lookup "Port of Discharge" (extract_tracking_data pSentinel) = some none ∧
    List.lookup "Vessel/Voyage" (extract_tracking_data pSentinel) = some none ∧
    List.lookup "Equipment Handling Facility" (extract_tracking_data pSentinel) = some none := by
  obtain ⟨h1, h2, h3, h4⟩ := C3_sentinel_behavior pSentinel
  exact ⟨h1 rfl, h2 rfl, h3 (by decide) rfl, h4 "n.a" (by decide) rfl (by decide)⟩

/-- C3 counterexample: an ETA span reading exactly `N.A` is stored as the
non-absent value `N.A`, not as the absent value the claim requires. -/
theorem C3_counterexample :
    List.lookup "ETA" (extract_tracking_data pEtaNA) = some (some "N.A") ∧
    List.lookup "ETA" (extract_tracking_data pEtaNA) ≠ some none := by
  decide

/-- C4 (amended): extraction is total (never raises); accepted values are
trimmed; the primary locator is tried first and the fallback — defined only
for Vessel/Voyage and Equipment Handling Facility, and only in the
file-driven variant — is consulted exactly when the primary locator fails,
not when it returns empty text; when every strategy fails, or the accepted
text is empty, the field is the absent value; sentinel screening applies
only where the locators define it, not for ETA or Port of Discharge. -/
theorem C4_fallback_behavior (p : PageState) :
    (∀ t, p.etaText = some t → pyStrip t ≠ "" →
      List.lookup "ETA" (extract_tracking_data p) = some (some (pyStrip t))) ∧
    (∀ t2, findVesselPrimary p = none → findVesselFallback p = some t2 →
      pyStrip t2 ≠ "" → pyUpper (pyStrip t2) ≠ "N.A" →
      List.lookup "Vessel/Voyage" (extract_tracking_data p) = some (some (pyStrip t2))) ∧
    (∀ t, findVesselPrimary p = some t → pyStrip t = "" →
      List.lookup "Vessel/Voyage" (extract_tracking_data p) = some none) ∧
    (findFacilityPrimary p = none → findFacilityTooltip p = none →
      List.lookup "Equipment Handling Facility" (extract_tracking_data p) = some none) ∧
    (findFacilityPrimary p = none →
      List.lookup "Equipment Handling Facility" (extract_tracking_data_app p) = some none) := by
  refine ⟨?_, ?_, ?_, ?_, ?_⟩
  · intro t ht hs
    rw [extract_eta_eq]
    simp only [etaValue, ht, stripOrNone, if_neg hs]
  · intro t2 hp hf hs hu
    rw [extract_vessel_eq]
    simp only [vesselValue, hp, hf]
    rw [if_pos ⟨hs, hu⟩]
  · intro t hp hs
    rw [extract_vessel_eq]
    simp only [vesselValue, hp]
    rw [if_pos hs]
  · intro hp hf
    rw [extract_facility_eq]
    simp only [facilityValue, hp, hf]
  · intro hp
    rw [extract_app_facility_eq]
    simp only [facilityValueApp, hp]

/-- C4 witness: padded ETA text is trimmed; the vessel fallback fires on
primary failure and its value is trimmed; a blank-but-found vessel primary
suppresses the fallback; a facility with no locator match is absent, in
both variants. -/
theorem C4_witness :
    List.lookup "ETA" (extract_tracking_data pFallback) = some (some "2024-05-01") ∧
    List.lookup "Vessel/Voyage" (extract_tracking_data pFallback) = some (some "MSC X / 123") ∧
    List.lookup "Vessel/Voyage" (extract_tracking_data pVesselEmpty) = some none ∧
    List.lookup "Equipment Handling Facility" (extract_tracking_data pFallback) = some none ∧
    List.lookup "Equipment Handling Facility" (extract_tracking_data_app pFallback) = some none := by
  obtain ⟨h1, h2, -, h4, h5⟩ := C4_fallback_behavior pFallback
  obtain ⟨-, -, g3, -, -⟩ := C4_fallback_behavior pVesselEmpty
  exact ⟨h1 _ rfl (by decide), h2 _ (by decide) rfl (by decide) (by decide),
    g3 "  " (by decide) (by decide), h4 (by decide) rfl, h5 (by decide)⟩

/-- C4 counterexample: a Port of Discharge span reading exactly the
sentinel yields the non-absent value `N.A`, contradicting the claim that a
sentinel-valued located text always resolves to the absent value. -/
theorem C4_counterexample :
    List.lookup "Port of Discharge" (extract_tracking_data pPodNA) = some (some "N.A") ∧
    List.lookup "Port of Discharge" (extract_tracking_data pPodNA) ≠ some none := by
  decide

/-- C5: every record either extractor returns carries exactly the four
fixed field keys, in the fixed order, regardless of which locator
strategies succeeded. -/
theorem C5_record_keys (p q : PageState) :
    (extract_tracking_data p).map Prod.fst = fieldKeys ∧
    (extract_tracking_data_app q).map Prod.fst = fieldKeys :=
  ⟨extract_keys p, extract_app_keys q⟩

/-- C6: computing a snapshot is total (never raises), returns the empty
string when the results region is absent, and always returns at most 200
characters. -/
theorem C6_snapshot_safe (p : PageState) :
    (p.resultsRegionText = none → get_results_snapshot p = "") ∧
    (get_results_snapshot p).length ≤ 200 := by
  constructor
  · intro h
    simp [get_results_snapshot, h]
  · rcases hr : p.resultsRegionText with _ | t
    · simp [get_results_snapshot, hr]
    · simp only [get_results_snapshot, hr]
      show (List.take 200 (pyStrip t).data).length ≤ 200
      rw [List.length_take]
      exact min_le_left _ _

/-- C6 witness: the fresh page has no results region, so its snapshot is
empty and trivially within the bound. -/
theorem C6_witness :
    get_results_snapshot emptyPage = "" ∧
    (get_results_snapshot emptyPage).length ≤ 200 :=
  ⟨(C6_snapshot_safe emptyPage).1 rfl, (C6_snapshot_safe emptyPage).2⟩

/-- C7: once the driver has been created, both orchestrators run
`driver.quit()` exactly once on every exit path, whether the body returns
normally or propagates an error. -/
theorem C7_session_closed_once (w : World) (cs : List String) (df : Df)
    (hc : w.createOk = true) :
    (track_containers w cs).quitCount = 1 ∧
    ("Container Number" ∈ df.cols → (main_run w df).quitCount = 1) := by
  constructor
  · unfold track_containers
    rw [if_pos hc]
    split <;> rfl
  · intro hcol
    unfold main_run
    rw [if_pos hcol, if_pos hc]
    split <;> rfl

/-- C7 witness: a concrete successful run and a concrete file-driven run
each quit the driver exactly once. -/
theorem C7_witness :
    (track_containers wAllOk ["A"]).quitCount = 1 ∧
    ("Container Number" ∈ dfEx.cols → (main_run wAllOk dfEx).quitCount = 1) :=
  C7_session_closed_once wAllOk ["A"] dfEx rfl

/-- C8 (amended): between the wait-for-change return and the extraction,
the file-driven variant inserts the short settle pause (0.12-0.35 s) when a
change was seen and the longer fallback pause (0.4-0.9 s) otherwise; the UI
variant inserts the settle pause only when a change was seen and nothing at
all otherwise.  The fallback pause bounds exceed the settle pause bounds. -/
theorem C8_settle_delay (w : World) (i : Nat) (row : Rec) (c : String) (st : LoopState)
    (hs : w.submitOk i = true) :
    ((mainIter w i row st).toOption.map (fun r => settleActions r.2)) =
      some (if iterChanged w st then [Action.pause 120 350] else [Action.pause 400 900]) ∧
    ((mainIter w i row st).toOption.map (fun r => waitedFlag r.2)) =
      some (some (iterChanged w st)) ∧
    ((appIter w i c st).toOption.map (fun r => settleActions r.2)) =
      some (if iterChanged w st then [Action.pause 120 350] else []) ∧
    (350 : Nat) < 400 := by
  refine ⟨?_, ?_, ?_, by omega⟩
  · cases hch : iterChanged w st <;>
      simp [mainIter, hs, hch, Except.toOption, settleActions, afterWaited, beforeExtract]
  · cases hch : iterChanged w st <;>
      simp [mainIter, hs, hch, Except.toOption, waitedFlag]
  · cases hch : iterChanged w st <;>
      simp [appIter, hs, hch, Except.toOption, settleActions, afterWaited, beforeExtract]

/-- C8 witness: in a run where the page never changes, the file-driven
iteration inserts the fallback pause before extracting. -/
theorem C8_witness :
    ((mainIter wAllOk 0 rowEx stEx).toOption.map (fun r => settleActions r.2)) =
      some (if iterChanged wAllOk stEx then [Action.pause 120 350] else [Action.pause 400 900]) ∧
    ((mainIter wAllOk 0 rowEx stEx).toOption.map (fun r => waitedFlag r.2)) =
      some (some (iterChanged wAllOk stEx)) ∧
    ((appIter wAllOk 0 "X" stEx).toOption.map (fun r => settleActions r.2)) =
      some (if iterChanged wAllOk stEx then [Action.pause 120 350] else []) ∧
    (350 : Nat) < 400 :=
  C8_settle_delay wAllOk 0 rowEx "X" stEx rfl

/-- C8 counterexample: in the UI variant, when no change was detected the
iteration performs no pause at all between the wait and the extraction —
there is no longer fallback delay, contradicting the claim. -/
theorem C8_counterexample :
    (appIter wAllOk 0 "X" stEx).toOption.map
      (fun r => (waitedFlag r.2, settleActions r.2)) = some (some false, []) := by
  decide

/-- C9: a non-positive timeout makes `wait_for_change` return false at once
without taking a single snapshot. -/
theorem C9_nonpositive_timeout (snap : Nat → String) (t0 : Nat) (prev : String)
    (timeout : Int) (h : timeout ≤ 0) :
    wait_for_change snap t0 prev timeout = false ∧
    wait_polls snap t0 prev timeout = 0 := by
  have hz : timeout.toNat = 0 := Int.toNat_of_nonpos h
  constructor
  · simp [wait_for_change, hz, waitLoop]
  · simp [wait_polls, hz, waitPolls]

/-- C9 witness: a concrete negative timeout returns false with zero polls. -/
theorem C9_witness :
    wait_for_change (fun _ => "x") 0 "" (-3) = false ∧
    wait_polls (fun _ => "x") 0 "" (-3) = 0 :=
  C9_nonpositive_timeout (fun _ => "x") 0 "" (-3) (by decide)

/-- C10: the record the file-driven iteration emits is the input row merged
with the extracted data: its keys are the row's columns followed by exactly
the tracking field keys the row lacks; a non-tracking input column keeps
its input value; a tracking field key always holds the extracted value,
overwriting any input column of the same name. -/
theorem C10_row_merge (w : World) (i : Nat) (row : Rec) (st : LoopState)
    (hs : w.submitOk i = true) :
    ((mainIter w i row st).toOption.map (fun r => r.1.results)) =
      some (st.results ++
        [pyMerge row (extract_tracking_data (w.pageAt (mainExtractTime w st)))]) ∧
    ∀ p : PageState,
      (pyMerge row (extract_tracking_data p)).map Prod.fst =
        row.map Prod.fst ++ fieldKeys.filter (fun k => (List.lookup k row).isNone) ∧
      (∀ k, k ∉ fieldKeys →
        List.lookup k (pyMerge row (extract_tracking_data p)) = List.lookup k row) ∧
      (∀ k, k ∈ fieldKeys →
        List.lookup k (pyMerge row (extract_tracking_data p)) =
          List.lookup k (extract_tracking_data p)) := by
  constructor
  · simp [mainIter, hs, Except.toOption]
  · intro p
    refine ⟨?_, ?_, ?_⟩
    · rw [pyMerge_keys, extract_keys]
    · intro k hk
      rw [pyMerge_lookup]
      have hnone : List.lookup k (extract_tracking_data p) = none := by
        rw [lookup_eq_none_iff, extract_keys]
        exact hk
      rw [hnone]
    · intro k hk
      rw [pyMerge_lookup]
      cases hE : List.lookup k (extract_tracking_data p) with
      | none =>
          exfalso
          rw [lookup_eq_none_iff, extract_keys] at hE
          exact hE hk
      | some v => rfl

/-- C10 witness: a two-column row gains exactly the four tracking keys; the
extra column is carried through and the tracking keys hold the extracted
values. -/
theorem C10_witness :
    ((mainIter wAllOk 0 rowEx stEx).toOption.map (fun r => r.1.results)) =
      some (stEx.results ++
        [pyMerge rowEx (extract_tracking_data (wAllOk.pageAt (mainExtractTime wAllOk stEx)))]) ∧
    ∀ p : PageState,
      (pyMerge rowEx (extract_tracking_data p)).map Prod.fst =
        rowEx.map Prod.fst ++ fieldKeys.filter (fun k => (List.lookup k rowEx).isNone) ∧
      (∀ k, k ∉ fieldKeys →
        List.lookup k (pyMerge rowEx (extract_tracking_data p)) = List.lookup k rowEx) ∧
      (∀ k, k ∈ fieldKeys →
        List.lookup k (pyMerge rowEx (extract_tracking_data p)) =
          List.lookup k (extract_tracking_data p)) :=
  C10_row_merge wAllOk 0 rowEx stEx rfl

end MSC
